import Mathlib

/-!
Verification development for the content-creator-suite MCP servers
(idea-generator, growth-optimizer, script-to-video, shared types/logger).

Each definition below is a shallow embedding of a function or constant of
the TypeScript source.  External capabilities (the Gemini generative-text
provider, the trend HTTP endpoints, the TTS providers, `JSON.parse`) are
modelled as explicit oracle inputs; every call to such a capability is
recorded in an explicit `ExtCall` log so that "no external capability is
invoked" is a provable statement about the log.
-/

/-- Model of a JavaScript JSON value (the result of `JSON.parse`).
Numbers are modelled as rationals. -/
inductive JValue where
  | null : JValue
  | bool (b : Bool) : JValue
  | num (q : ℚ) : JValue
  | str (s : String) : JValue
  | arr (elems : List JValue) : JValue
  | obj (fields : List (String × JValue)) : JValue

/-- Field lookup on a JSON object (`undefined` is `none`). -/
def JValue.getField : JValue → String → Option JValue
  | JValue.obj fields, name => fields.lookup name
  | _, _ => none

/-- The character written `\x7b` in source text (left curly brace). -/
def braceOpen : Char := Char.ofNat 123

/-- The character written `\x7d` in source text (right curly brace). -/
def braceClose : Char := Char.ofNat 125

/-- Index of the last occurrence of `ch` in `l`, if any. -/
def lastIdx (ch : Char) : List Char → Option Nat
  | [] => none
  | x :: xs =>
    match lastIdx ch xs with
    | some k => some (k + 1)
    | none => if x = ch then some 0 else none

/-- Greedy single-pair "regex" slice: the semantics of matching
`/o[\s\S]*c/` against a character list — the match starts at the first
occurrence of `o` and extends to the last occurrence of `c` after it.
This is exactly what `text.match(...)` computes for the extraction
patterns used in the source. -/
def regexSlice (o c : Char) : List Char → Option (List Char)
  | [] => none
  | x :: xs =>
    if x = o then
      match lastIdx c xs with
      | some k => some (x :: xs.take (k + 1))
      | none => none
    else regexSlice o c xs

/-- `text.match(/\{[\s\S]*\}/)`: the first-object extraction used by the
generative handlers. -/
def extractObject (text : String) : Option String :=
  (regexSlice braceOpen braceClose text.data).map String.mk

/-- `text.match(/\[[\s\S]*\]/)`: the first-array extraction used by the
generative handlers. -/
def extractArray (text : String) : Option String :=
  (regexSlice '[' ']' text.data).map String.mk

/-- External capabilities invoked by handlers.  Each constructor records
the data of one outbound request (prompt text for Gemini calls is
determined by the recorded arguments; the literal prompt string is not
reproduced). -/
inductive ExtCall where
  | youtubeTrendsFetch : ExtCall
  | redditFetch (niche : String) : ExtCall
  | geminiGenerateIdeas (niche platform : String) (count : Int) (trends : List String) : ExtCall
  | geminiPredictVirality (title description platform niche : String) : ExtCall
  | geminiGenerate (tool : String) : ExtCall
  | elevenLabsTts (voiceId script : String) : ExtCall
  | huggingFaceTts (script : String) : ExtCall
  deriving DecidableEq, Repr

/-- Process environment: the credentials resolved from `process.env` at
handler-invocation time. -/
structure ProcEnv where
  geminiKey : Option String
  elevenLabsKey : Option String
  huggingFaceKey : Option String
  deriving DecidableEq, Repr

/-- Behaviour of the opaque generative-text capability and of
`JSON.parse` for one call: the free-form text the provider returns, and
the parse of any extracted payload (`Except.error` models a
`JSON.parse` exception). -/
structure GenWorld where
  geminiText : String
  jsonParse : String → Except String JValue

/-- Outcomes of the two trend HTTP fetches: whether the YouTube request
succeeds, and the Reddit post titles (`none` models a thrown request,
`some titles` a response whose posts carry the given `title` fields). -/
structure TrendEnv where
  youtubeOk : Bool
  redditPosts : Option (List String)

/-- World of the idea-generator server: trend endpoints plus the
generative provider. -/
structure IdeaWorld where
  trend : TrendEnv
  gen : GenWorld

/-- The uniform MCP response envelope: a success payload, or the error
document `\x7b error, traceId \x7d` with `isError` set. -/
inductive Envelope (α : Type) where
  | success (value : α) : Envelope α
  | failure (message : String) (traceId : String) : Envelope α

/-- The `isError` flag of an envelope. -/
def Envelope.isError {α : Type} : Envelope α → Bool
  | Envelope.success _ => false
  | Envelope.failure _ _ => true

/-- The `try`/`catch` around every handler in each server's `main`:
a thrown error becomes an error envelope carrying the message and the
call's trace id. -/
def runToolCall {α : Type} (traceId : String) (r : Except String α × List ExtCall) :
    Envelope α × List ExtCall :=
  match r with
  | (Except.ok v, calls) => (Envelope.success v, calls)
  | (Except.error e, calls) => (Envelope.failure e traceId, calls)

/-- Boolean test for a failed `Except` (a thrown `zod` parse). -/
def isErr {ε α : Type} : Except ε α → Bool
  | Except.error _ => true
  | Except.ok _ => false


/-! ## Idea-generator server (`src/idea-generator`) -/

/-- Topics pushed after a successful YouTube trends fetch
(the source derives them from the niche, not from the response body). -/
def ytDerivedTopics (niche : String) : List String :=
  [niche ++ " tutorial", niche ++ " 2025", "best " ++ niche]

/-- Topics pushed for the Twitter/X branch (no external call is made). -/
def twitterTopics (niche : String) : List String :=
  ["#" ++ niche, niche ++ " tips", niche ++ " secrets"]

/-- Topics pushed for the Google-Trends branch (no external call is made). -/
def googleTrendsTopics (niche : String) : List String :=
  ["how to " ++ niche, niche ++ " for beginners", niche ++ " vs", niche ++ " mistakes"]

/-- `String.prototype.toLowerCase`, modelled characterwise. -/
def lowerStr (s : String) : String := String.mk (s.data.map Char.toLower)

/-- Topics pushed after a successful Reddit fetch: the lowercased titles
of the returned posts (posts with a falsy — empty or missing — title are
skipped by the `if (post.data.title)` guard). -/
def redditTopics (posts : List String) : List String :=
  (posts.filter (fun t => t ≠ "")).map lowerStr

/-- The concatenation, in source push order (YouTube, Twitter, Reddit,
Google Trends), of all topics obtained from the requested platforms.
A failing fetch contributes nothing (its `catch` block pushes no topic). -/
def gatheredTopics (niche : String) (platforms : List String) (w : TrendEnv) : List String :=
  (if platforms.contains "youtube" then (if w.youtubeOk then ytDerivedTopics niche else []) else [])
    ++ (if platforms.contains "twitter" then twitterTopics niche else [])
    ++ (if platforms.contains "reddit" then
          (match w.redditPosts with
           | some posts => redditTopics posts
           | none => []) else [])
    ++ (if platforms.contains "google-trends" then googleTrendsTopics niche else [])

/-- First-occurrence deduplication: the iteration order of a JavaScript
`Set` built by insertion (`[...new Set(trends)]`). -/
def firstSeenDedup : List String → List String
  | [] => []
  | x :: xs => x :: firstSeenDedup (xs.filter (fun y => y ≠ x))
termination_by l => l.length
decreasing_by
  simp only [List.length_cons]
  exact Nat.lt_succ_of_le (List.length_filter_le _ _)

/-- The external requests attempted by `scrapeTrendingTopics` (an attempt
is recorded whether or not the request succeeds). -/
def trendCalls (niche : String) (platforms : List String) : List ExtCall :=
  (if platforms.contains "youtube" then [ExtCall.youtubeTrendsFetch] else [])
    ++ (if platforms.contains "reddit" then [ExtCall.redditFetch niche] else [])

/-- `scrapeTrendingTopics`: gathers topics per requested platform,
swallowing per-platform fetch failures, and returns the deduplicated
union in first-seen order.  Total: no failure escapes. -/
def scrapeTrendingTopics (niche : String) (platforms : List String) (w : TrendEnv) :
    List String × List ExtCall :=
  (firstSeenDedup (gatheredTopics niche platforms w), trendCalls niche platforms)

/-- The `platform` enum of `ViralIdeaSchema` and `GenerateIdeasArgsSchema`. -/
def ideaPlatforms : List String :=
  ["youtube", "tiktok", "instagram-reels", "youtube-shorts", "all"]

/-- The `category` enum of `ViralIdeaSchema`. -/
def ideaCategories : List String :=
  ["education", "entertainment", "comedy", "tutorial", "review",
   "vlog", "gaming", "lifestyle", "tech", "fitness"]

/-- The platform enum of `AnalyzeTrendsArgsSchema`. -/
def trendPlatforms : List String :=
  ["youtube", "tiktok", "twitter", "reddit", "google-trends"]

/-- The platform enum of `PredictViralityArgsSchema`. -/
def viralityPlatforms : List String :=
  ["youtube", "tiktok", "instagram-reels", "youtube-shorts"]

/-- The `trendWindow` enum of `GenerateIdeasArgsSchema`. -/
def trendWindows : List String := ["24h", "7d", "30d"]

/-- `z.string().datetime()`: the zod ISO-8601 check, i.e. the regex
`^\d\x7b4\x7d-\d\x7b2\x7d-\d\x7b2\x7dT\d\x7b2\x7d:\d\x7b2\x7d:\d\x7b2\x7d(\.\d+)?Z$`. -/
def isIsoDatetime (s : String) : Bool :=
  match s.data.take 19, s.data.drop 19 with
  | [y1, y2, y3, y4, h1, m1, m2, h2, d1, d2, t, hh1, hh2, c1, n1, n2, c2, s1, s2], rest =>
    y1.isDigit && y2.isDigit && y3.isDigit && y4.isDigit && (h1 = '-') &&
    m1.isDigit && m2.isDigit && (h2 = '-') && d1.isDigit && d2.isDigit &&
    (t = 'T') && hh1.isDigit && hh2.isDigit && (c1 = ':') &&
    n1.isDigit && n2.isDigit && (c2 = ':') && s1.isDigit && s2.isDigit &&
    (match rest with
     | ['Z'] => true
     | '.' :: more =>
       (match more.getLast? with
        | some 'Z' => more.dropLast ≠ [] && more.dropLast.all Char.isDigit
        | _ => false)
     | _ => false)
  | _, _ => false

/-- A JSON string field of bounded length (zod `z.string().min(a).max(b)`;
`String.length` models the JavaScript UTF-16 length, which agrees on the
inputs considered here). -/
def isBoundedStr (j : Option JValue) (lo hi : Nat) : Bool :=
  match j with
  | some (JValue.str s) => lo ≤ s.length && s.length ≤ hi
  | _ => false

/-- An arbitrary JSON string field (zod `z.string()`). -/
def isStr (j : Option JValue) : Bool :=
  match j with
  | some (JValue.str _) => true
  | _ => false

/-- A JSON string field restricted to an enum (zod `z.enum([...])`). -/
def isEnum (j : Option JValue) (allowed : List String) : Bool :=
  match j with
  | some (JValue.str s) => allowed.contains s
  | _ => false

/-- A JSON number field (zod `z.number()`). -/
def isNum (j : Option JValue) : Bool :=
  match j with
  | some (JValue.num _) => true
  | _ => false

/-- A JSON number field within inclusive bounds (zod `z.number().min(a).max(b)`). -/
def isNumBetween (j : Option JValue) (lo hi : ℚ) : Bool :=
  match j with
  | some (JValue.num q) => lo ≤ q && q ≤ hi
  | _ => false

/-- A JSON array of strings (zod `z.array(z.string())`),
optionally bounded in length (`.max`). -/
def isStrArray (j : Option JValue) : Bool :=
  match j with
  | some (JValue.arr elems) =>
    elems.all (fun e => match e with | JValue.str _ => true | _ => false)
  | _ => false

/-- One element of the `scriptOutline` array of `ViralIdeaSchema`. -/
def isOutlineItem (j : JValue) : Bool :=
  isStr (j.getField "section") && isNum (j.getField "duration") &&
    isStrArray (j.getField "keyPoints")

/-- `ViralIdeaSchema.parse` succeeds on this JSON value: the element
validation each generated idea must pass (`src/shared/types.ts`). -/
def isValidIdea (j : JValue) : Bool :=
  match j with
  | JValue.obj _ =>
    isStr (j.getField "id") &&
    isBoundedStr (j.getField "title") 10 100 &&
    isBoundedStr (j.getField "hook") 10 200 &&
    isEnum (j.getField "platform") ideaPlatforms &&
    isEnum (j.getField "category") ideaCategories &&
    isNumBetween (j.getField "viralScore") 0 100 &&
    isStrArray (j.getField "trendingTopics") &&
    isStr (j.getField "targetAudience") &&
    isStr (j.getField "thumbnailConcept") &&
    (match j.getField "scriptOutline" with
     | some (JValue.arr items) => items.all isOutlineItem
     | _ => false) &&
    (match j.getField "estimatedViews" with
     | some v => isNum (v.getField "min") && isNum (v.getField "max") &&
         isNum (v.getField "confidence")
     | none => false) &&
    (match j.getField "seo" with
     | some v =>
       (match v.getField "tags" with
        | some (JValue.arr tags) =>
          tags.length ≤ 30 &&
            tags.all (fun e => match e with | JValue.str _ => true | _ => false)
        | _ => false) &&
       isBoundedStr (v.getField "description") 0 500 &&
       isStrArray (v.getField "keywords")
     | none => false) &&
    (match j.getField "generatedAt" with
     | some (JValue.str s) => isIsoDatetime s
     | _ => false)
  | _ => false

/-- The normalized arguments of `generate_viral_ideas`
(`z.infer<typeof GenerateIdeasArgsSchema>`). -/
structure GenerateIdeasArgs where
  niche : String
  platform : String
  count : Int
  trendWindow : String
  deriving DecidableEq, Repr

/-- The normalized arguments of `analyze_trending_topics`. -/
structure AnalyzeTrendsArgs where
  niche : String
  platforms : List String
  deriving DecidableEq, Repr

/-- The normalized arguments of `predict_virality`. -/
structure PredictViralityArgs where
  title : String
  description : String
  platform : String
  niche : String
  deriving DecidableEq, Repr

/-- `GenerateIdeasArgsSchema.parse`: required `niche` string, `platform`
restricted to its enum, integral `count` within the inclusive range
10..50, and `trendWindow` restricted to its enum with default `"7d"`
when absent. -/
def parseGenerateIdeasArgs (j : JValue) : Except String GenerateIdeasArgs :=
  match j.getField "niche" with
  | some (JValue.str niche) =>
    (match j.getField "platform" with
     | some (JValue.str platform) =>
       if platform ∈ ideaPlatforms then
         (match j.getField "count" with
          | some (JValue.num q) =>
            if q.den = 1 ∧ 10 ≤ q ∧ q ≤ 50 then
              (match j.getField "trendWindow" with
               | none =>
                 Except.ok { niche := niche, platform := platform,
                             count := q.num, trendWindow := "7d" }
               | some (JValue.str w) =>
                 if w ∈ trendWindows then
                   Except.ok { niche := niche, platform := platform,
                               count := q.num, trendWindow := w }
                 else Except.error "Invalid enum value for trendWindow"
               | some _ => Except.error "Expected string for trendWindow")
            else Except.error "count out of range"
          | some _ => Except.error "Expected number for count"
          | none => Except.error "Required field count missing")
       else Except.error "Invalid enum value for platform"
     | some _ => Except.error "Expected string for platform"
     | none => Except.error "Required field platform missing")
  | some _ => Except.error "Expected string for niche"
  | none => Except.error "Required field niche missing"

/-- `AnalyzeTrendsArgsSchema.parse`: required `niche` string and
`platforms` array restricted to its enum. -/
def parseAnalyzeTrendsArgs (j : JValue) : Except String AnalyzeTrendsArgs :=
  match j.getField "niche" with
  | some (JValue.str niche) =>
    (match j.getField "platforms" with
     | some (JValue.arr elems) =>
       if elems.all (fun e => isEnum (some e) trendPlatforms) then
         Except.ok { niche := niche,
                     platforms := elems.filterMap
                       (fun e => match e with | JValue.str s => some s | _ => none) }
       else Except.error "Invalid enum value in platforms"
     | some _ => Except.error "Expected array for platforms"
     | none => Except.error "Required field platforms missing")
  | some _ => Except.error "Expected string for niche"
  | none => Except.error "Required field niche missing"

/-- `PredictViralityArgsSchema.parse`. -/
def parsePredictViralityArgs (j : JValue) : Except String PredictViralityArgs :=
  match j.getField "title", j.getField "description", j.getField "niche" with
  | some (JValue.str title), some (JValue.str description), some (JValue.str niche) =>
    (match j.getField "platform" with
     | some (JValue.str platform) =>
       if platform ∈ viralityPlatforms then
         Except.ok { title := title, description := description,
                     platform := platform, niche := niche }
       else Except.error "Invalid enum value for platform"
     | some _ => Except.error "Expected string for platform"
     | none => Except.error "Required field platform missing")
  | _, _, _ => Except.error "Invalid title, description or niche"

/-- `generateViralIdeas`: checks the Gemini credential, scrapes trends
with the hard-coded platform list, invokes the provider, extracts the
first array payload from the response text (empty list when no match),
parses it, and keeps only the elements passing `ViralIdeaSchema`. -/
def generateViralIdeas (env : ProcEnv) (w : IdeaWorld) (args : GenerateIdeasArgs) :
    Except String (List JValue) × List ExtCall :=
  match env.geminiKey with
  | none => (Except.error "GEMINI_API_KEY not found", [])
  | some _ =>
    let scraped := scrapeTrendingTopics args.niche ["youtube", "reddit", "google-trends"] w.trend
    let calls := scraped.2 ++
      [ExtCall.geminiGenerateIdeas args.niche args.platform args.count scraped.1]
    match extractArray w.gen.geminiText with
    | none => (Except.ok [], calls)
    | some payload =>
      match w.gen.jsonParse payload with
      | Except.error e => (Except.error e, calls)
      | Except.ok (JValue.arr elems) => (Except.ok (elems.filter isValidIdea), calls)
      | Except.ok _ => (Except.error "ideas.map is not a function", calls)

/-- `analyzeTrends`: scrapes the requested platforms and summarizes.
The per-topic `volume`/`growth` placeholders (drawn from `Math.random`)
and the `analyzedAt` timestamp are not represented. -/
def analyzeTrends (w : IdeaWorld) (args : AnalyzeTrendsArgs) :
    (String × List String × List String × List String) × List ExtCall :=
  let scraped := scrapeTrendingTopics args.niche args.platforms w.trend
  ((args.niche, args.platforms, scraped.1, scraped.1.take 10), scraped.2)

/-- `predictVirality`: checks the Gemini credential, invokes the
provider, extracts the first object payload from the response text and
parses it; with no match it falls back to the constant object with
`overallScore` 50. -/
def predictVirality (env : ProcEnv) (w : IdeaWorld) (args : PredictViralityArgs) :
    Except String JValue × List ExtCall :=
  match env.geminiKey with
  | none => (Except.error "GEMINI_API_KEY not found", [])
  | some _ =>
    let calls := [ExtCall.geminiPredictVirality args.title args.description
      args.platform args.niche]
    match extractObject w.gen.geminiText with
    | none => (Except.ok (JValue.obj [("overallScore", JValue.num 50)]), calls)
    | some payload =>
      match w.gen.jsonParse payload with
      | Except.error e => (Except.error e, calls)
      | Except.ok j => (Except.ok j, calls)

/-- Success payloads of the idea-generator server, one constructor per
tool (the serialized-JSON `text` document is represented structurally;
`ideasResult` carries the `ideas` array and the `count` field computed
in the dispatcher as `ideas.length`). -/
inductive IdeaPayload where
  | ideasResult (ideas : List JValue) (count : Nat) : IdeaPayload
  | trendsResult (niche : String) (platforms : List String)
      (trends : List String) (topTrends : List String) : IdeaPayload
  | viralityResult (prediction : JValue) : IdeaPayload

/-- The `CallToolRequestSchema` handler of the idea-generator server:
routes on the tool name, validates arguments with the matching zod
schema, runs the handler, and wraps the outcome in the uniform
envelope; every thrown error (validation, configuration or provider) is
caught here and becomes an error envelope. -/
def handleIdeaToolCall (env : ProcEnv) (w : IdeaWorld) (traceId : String)
    (name : String) (arguments : JValue) : Envelope IdeaPayload × List ExtCall :=
  if name = "generate_viral_ideas" then
    match parseGenerateIdeasArgs arguments with
    | Except.error e => (Envelope.failure e traceId, [])
    | Except.ok args =>
      match generateViralIdeas env w args with
      | (Except.error e, calls) => (Envelope.failure e traceId, calls)
      | (Except.ok ideas, calls) =>
        (Envelope.success (IdeaPayload.ideasResult ideas ideas.length), calls)
  else if name = "analyze_trending_topics" then
    match parseAnalyzeTrendsArgs arguments with
    | Except.error e => (Envelope.failure e traceId, [])
    | Except.ok args =>
      match analyzeTrends w args with
      | ((niche, platforms, trends, top), calls) =>
        (Envelope.success (IdeaPayload.trendsResult niche platforms trends top), calls)
  else if name = "predict_virality" then
    match parsePredictViralityArgs arguments with
    | Except.error e => (Envelope.failure e traceId, [])
    | Except.ok args =>
      match predictVirality env w args with
      | (Except.error e, calls) => (Envelope.failure e traceId, calls)
      | (Except.ok prediction, calls) =>
        (Envelope.success (IdeaPayload.viralityResult prediction), calls)
  else
    (Envelope.failure ("Unknown tool: " ++ name) traceId, [])

/-! ## Script-to-video server (`src/script-to-video/server.ts`) -/

/-- One outline section of the idea passed to `generate_video_script`. -/
structure OutlineSection where
  section_ : String
  duration : ℚ
  keyPoints : List String
  deriving DecidableEq, Repr

/-- The validated `idea` object of `GenerateScriptArgsSchema`. -/
structure ScriptIdea where
  title : String
  hook : String
  platform : String
  duration : ℚ
  outline : Option (List OutlineSection)
  deriving DecidableEq, Repr

/-- The normalized arguments of `generate_video_script`. -/
structure GenerateScriptArgs where
  idea : ScriptIdea
  tone : String
  includeVoiceover : Bool
  includeBRoll : Bool
  deriving DecidableEq, Repr

/-- The normalized arguments of `generate_storyboard`. -/
structure GenerateStoryboardArgs where
  script : String
  platform : String
  visualStyle : String
  deriving DecidableEq, Repr

/-- `generateVideoScript`: checks the Gemini credential, invokes the
provider, and extracts the first object payload from the response text;
with no match it throws `Failed to extract JSON from AI response`
(the strict extraction branch). -/
def generateVideoScript (env : ProcEnv) (w : GenWorld) (args : GenerateScriptArgs) :
    Except String JValue × List ExtCall :=
  match env.geminiKey with
  | none => (Except.error "GEMINI_API_KEY not found", [])
  | some _ =>
    let calls := [ExtCall.geminiGenerate "generate_video_script"]
    match extractObject w.geminiText with
    | none => (Except.error "Failed to extract JSON from AI response", calls)
    | some payload =>
      match w.jsonParse payload with
      | Except.error e => (Except.error e, calls)
      | Except.ok j => (Except.ok j, calls)

/-- `generateStoryboard`: checks the Gemini credential, invokes the
provider, and extracts the first object payload from the response text;
with no match it silently falls back to the object with an empty
`shots` array (the lenient extraction branch). -/
def generateStoryboard (env : ProcEnv) (w : GenWorld) (args : GenerateStoryboardArgs) :
    Except String JValue × List ExtCall :=
  match env.geminiKey with
  | none => (Except.error "GEMINI_API_KEY not found", [])
  | some _ =>
    let calls := [ExtCall.geminiGenerate "generate_storyboard"]
    match extractObject w.geminiText with
    | none => (Except.ok (JValue.obj [("shots", JValue.arr [])]), calls)
    | some payload =>
      match w.jsonParse payload with
      | Except.error e => (Except.error e, calls)
      | Except.ok j => (Except.ok j, calls)

/-- The TTS provider enum of `GenerateVoiceoverArgsSchema`. -/
inductive TtsProvider where
  | elevenlabs : TtsProvider
  | huggingface : TtsProvider
  deriving DecidableEq, Repr

/-- The normalized arguments of `generate_voiceover` (defaults already
applied by the schema: `voice` `"neutral"`, `provider` `huggingface`,
`format` `"mp3"`). -/
structure GenerateVoiceoverArgs where
  script : String
  voice : String
  provider : TtsProvider
  format : String
  deriving DecidableEq, Repr

/-- Outcome of the one TTS HTTP request (`Except.error` models a thrown
`axios` call). -/
structure TtsWorld where
  ttsResult : Except String Unit

/-- Result document of `generate_voiceover`. -/
structure VoiceoverResult where
  success : Bool
  audioPath : String
  provider : String
  duration : Nat
  format : String
  note : Option String
  deriving DecidableEq, Repr

/-- `generateVoiceover`: resolves the provider-specific credential from
the environment before any request — a missing key throws immediately,
naming the credential — then performs the single TTS request and writes
the audio under `/tmp` with a trace-derived name. -/
def generateVoiceover (env : ProcEnv) (w : TtsWorld) (traceId : String)
    (args : GenerateVoiceoverArgs) : Except String VoiceoverResult × List ExtCall :=
  match args.provider with
  | TtsProvider.elevenlabs =>
    (match env.elevenLabsKey with
     | none =>
       (Except.error "ELEVENLABS_API_KEY not found. Set it or use provider: \"huggingface\"", [])
     | some _ =>
       let voiceId := if args.voice = "" then "21m00Tcm4TlvDq8ikWAM" else args.voice
       let calls := [ExtCall.elevenLabsTts voiceId args.script]
       match w.ttsResult with
       | Except.error e => (Except.error e, calls)
       | Except.ok _ =>
         (Except.ok { success := true,
                      audioPath := "/tmp/voiceover-" ++ traceId ++ "." ++ args.format,
                      provider := "elevenlabs",
                      duration := args.script.length / 15,
                      format := args.format,
                      note := none }, calls))
  | TtsProvider.huggingface =>
    (match env.huggingFaceKey with
     | none => (Except.error "HUGGINGFACE_API_KEY not found", [])
     | some _ =>
       let calls := [ExtCall.huggingFaceTts args.script]
       match w.ttsResult with
       | Except.error e => (Except.error e, calls)
       | Except.ok _ =>
         (Except.ok { success := true,
                      audioPath := "/tmp/voiceover-" ++ traceId ++ "." ++ args.format,
                      provider := "huggingface",
                      duration := args.script.length / 15,
                      format := args.format,
                      note := some "For production quality, use ElevenLabs (set ELEVENLABS_API_KEY)" },
          calls))

/-- The export format enum of `ExportProjectArgsSchema`. -/
inductive ExportFormat where
  | fcpxml : ExportFormat
  | premiereXml : ExportFormat
  | davinciXml : ExportFormat
  deriving DecidableEq, Repr

/-- The normalized arguments of `export_editing_project`
(`storyboard` is a passthrough object; only its `title` lookup is
observable in the output, so only that lookup is retained). -/
structure ExportProjectArgs where
  storyboardTitle : Option String
  voiceoverPath : Option String
  format : ExportFormat
  deriving DecidableEq, Repr

/-- `(args.storyboard as any).title || 'Untitled'`: JavaScript falsy
coalescing, so a missing or empty title becomes `Untitled`. -/
def projectName (storyboardTitle : Option String) : String :=
  match storyboardTitle with
  | none => "Untitled"
  | some t => if t = "" then "Untitled" else t

/-- Head of the FCPXML template, up to the asset slot. -/
def fcpPart1 : String :=
  "<?xml version=\"1.0\" encoding=\"UTF-8\"?>\n<!DOCTYPE fcpxml>\n<fcpxml version=\"1.9\">\n  <resources>\n    <format id=\"r1\" name=\"FFVideoFormat1080p30\" frameDuration=\"1001/30000s\" width=\"1920\" height=\"1080\"/>\n    "

/-- FCPXML template between the asset slot and the project name. -/
def fcpPart2 : String :=
  "\n  </resources>\n  <library>\n    <event name=\"AI Generated Video\">\n      <project name=\""

/-- FCPXML template between the project name and the audio slot. -/
def fcpPart3 : String :=
  "\">\n        <sequence format=\"r1\" duration=\"60s\">\n          <spine>\n            "

/-- Tail of the FCPXML template, after the audio slot. -/
def fcpPart4 : String :=
  "\n            <!-- Add video clips here based on storyboard -->\n          </spine>\n        </sequence>\n      </project>\n    </event>\n  </library>\n</fcpxml>"

/-- The `asset` element emitted when a voiceover path is supplied; the
path is interpolated verbatim into the `src` attribute. -/
def fcpAssetElem (p : String) : String :=
  "<asset id=\"r2\" src=\"file://" ++ p ++ "\" start=\"0s\" duration=\"60s\" hasAudio=\"1\"/>"

/-- The `audio` element referencing the asset in the spine. -/
def fcpAudioElem : String := "<audio ref=\"r2\" offset=\"0s\" duration=\"60s\"/>"

/-- Head of the Premiere XML template, up to the audio-track slot. -/
def premPart1 : String :=
  "<?xml version=\"1.0\" encoding=\"UTF-8\"?>\n<xmeml version=\"5\">\n  <sequence>\n    <name>AI Generated Video</name>\n    <duration>1800</duration>\n    <rate>\n      <timebase>30</timebase>\n    </rate>\n    <media>\n      <audio>\n        "

/-- Tail of the Premiere XML template, after the audio-track slot. -/
def premPart2 : String :=
  "\n      </audio>\n    </media>\n  </sequence>\n</xmeml>"

/-- The audio track element emitted when a voiceover path is supplied;
the path is interpolated verbatim into the `pathurl` element. -/
def premTrackElem (p : String) : String :=
  "<track><clipitem><file><pathurl>file://" ++ p ++ "</pathurl></file></clipitem></track>"

/-- The constant DaVinci Resolve (EDL) document. -/
def davinciDoc : String :=
  "TITLE: AI Generated Video\nFCM: NON-DROP FRAME\n\n001  BL       V     C        00:00:00:00 00:00:10:00 00:00:00:00 00:00:10:00\n* FROM CLIP NAME: Voiceover\n"

/-- The document produced by `exportEditingProject` for the requested
format: a pure function of the format, the storyboard title lookup and
the optional voiceover path (the template-literal concatenations of the
source rendered slot by slot).  Each voiceover slot is guarded by the
JavaScript truthiness test `args.voiceoverPath ? ... : ''`, so a
missing path and a supplied empty path both leave the slot empty. -/
def exportXmlDoc (args : ExportProjectArgs) : String :=
  match args.format with
  | ExportFormat.fcpxml =>
    fcpPart1 ++
      (match args.voiceoverPath with
       | some p => if p = "" then "" else fcpAssetElem p
       | none => "") ++
      fcpPart2 ++ projectName args.storyboardTitle ++ fcpPart3 ++
      (match args.voiceoverPath with
       | some p => if p = "" then "" else fcpAudioElem
       | none => "") ++
      fcpPart4
  | ExportFormat.premiereXml =>
    premPart1 ++
      (match args.voiceoverPath with
       | some p => if p = "" then "" else premTrackElem p
       | none => "") ++
      premPart2
  | ExportFormat.davinciXml => davinciDoc

/-- Result document of `export_editing_project` (the document itself is
written to the trace-derived `/tmp` path and only the path is returned). -/
structure ExportResult where
  success : Bool
  projectPath : String
  format : ExportFormat
  deriving DecidableEq, Repr

/-- `exportEditingProject`: pure templating keyed on the requested
format plus a `/tmp` file write of `exportXmlDoc`. -/
def exportEditingProject (args : ExportProjectArgs) (traceId : String) :
    Except String ExportResult × List ExtCall :=
  (Except.ok
    { success := true,
      projectPath := "/tmp/project-" ++ traceId ++ "." ++
        (match args.format with
         | ExportFormat.fcpxml => "fcpxml"
         | _ => "xml"),
      format := args.format }, [])

/-! ## Growth-optimizer server (`src/growth-optimizer`) -/

/-- The platform enum of `OptimizeScheduleArgsSchema`. -/
inductive GrowthPlatform where
  | youtube : GrowthPlatform
  | tiktok : GrowthPlatform
  | instagram : GrowthPlatform
  | twitter : GrowthPlatform
  deriving DecidableEq, Repr

/-- The static per-platform baseline posting times. -/
def baselineTimes : GrowthPlatform → List String
  | GrowthPlatform.youtube => ["14:00", "17:00", "20:00"]
  | GrowthPlatform.tiktok => ["07:00", "12:00", "19:00"]
  | GrowthPlatform.instagram => ["11:00", "13:00", "19:00"]
  | GrowthPlatform.twitter => ["08:00", "12:00", "17:00"]

/-- One sample of `historicalPerformance`.  `postHour` is the value of
`new Date(post.postTime).getHours()` — the hour-of-day extracted from
the sample's `postTime` timestamp (the `Date` library is external, so
the already-extracted hour is the embedded datum). -/
structure PerfPost where
  postHour : Fin 24
  views : ℚ
  engagement : ℚ
  deriving DecidableEq, Repr

/-- The samples accumulated into the bucket of hour `h`
(`performanceByHour[h]`). -/
def bucket (posts : List PerfPost) (h : Nat) : List PerfPost :=
  posts.filter (fun p => p.postHour.val = h)

/-- The keys of `performanceByHour` in `Object.entries` order: integer
keys of a JavaScript object iterate in ascending numeric order. -/
def distinctHours (posts : List PerfPost) : List Nat :=
  (List.range 24).filter (fun h => decide (bucket posts h ≠ []))

/-- One entry of the `topHours` intermediate array: the bucket's hour and
its arithmetic mean views and engagement (bucket sum over bucket count). -/
structure HourStat where
  hour : Nat
  avgViews : ℚ
  avgEngagement : ℚ
  deriving DecidableEq, Repr

/-- The mapped bucket record for hour `h`. -/
def hourStat (posts : List PerfPost) (h : Nat) : HourStat :=
  { hour := h,
    avgViews := ((bucket posts h).map (fun p => p.views)).sum / ((bucket posts h).length : ℚ),
    avgEngagement :=
      ((bucket posts h).map (fun p => p.engagement)).sum / ((bucket posts h).length : ℚ) }

/-- `Object.entries(performanceByHour).map(...)`: the per-bucket records
in ascending hour order. -/
def hourStats (posts : List PerfPost) : List HourStat :=
  (distinctHours posts).map (hourStat posts)

/-- The comparator-induced preorder of
`.sort((a, b) => b.avgEngagement - a.avgEngagement)`:
`a` may stay before `b` iff `a`'s mean engagement is not smaller. -/
def engGe (a b : HourStat) : Prop := b.avgEngagement ≤ a.avgEngagement

instance : DecidableRel engGe := fun a b => inferInstanceAs (Decidable (_ ≤ _))

instance : IsTotal HourStat engGe :=
  ⟨fun a b => le_total b.avgEngagement a.avgEngagement⟩

instance : IsTrans HourStat engGe :=
  ⟨fun _ _ _ h1 h2 => le_trans h2 h1⟩

/-- `Array.prototype.sort` with the descending-engagement comparator:
a stable sort with respect to `engGe` (ECMAScript sorts are stable), so
its result is the insertion sort by `engGe`. -/
def sortEngDesc (l : List HourStat) : List HourStat := l.insertionSort engGe

/-- `hour.toString().padStart(2, '0') + ':00'`. -/
def fmtHour (h : Nat) : String :=
  (if h < 10 then "0" ++ toString h else toString h) ++ ":00"

/-- The `optimalTimes` variable of `optimizePostingSchedule`: the
baseline table entry, overridden — when a non-empty history is supplied
— by the top 3 bucket hours ranked by descending mean engagement. -/
def optimalTimes (platform : GrowthPlatform) (hist : Option (List PerfPost)) : List String :=
  match hist with
  | some posts =>
    if 0 < posts.length then
      ((sortEngDesc (hourStats posts)).take 3).map (fun s => fmtHour s.hour)
    else baselineTimes platform
  | none => baselineTimes platform

/-- One entry of the returned `optimalPostingTimes` array. -/
structure ScheduleSlot where
  time : String
  dayOfWeek : String
  reason : String
  deriving DecidableEq, Repr

/-- The result document of `optimize_posting_schedule`. -/
structure ScheduleResult where
  platform : GrowthPlatform
  timezone : String
  optimalPostingTimes : List ScheduleSlot
  frequency : String
  avoidTimes : List String
  seasonalNotes : String
  recommendation : String
  deriving DecidableEq, Repr

/-- `optimizePostingSchedule`: ranks historical buckets when history is
supplied, otherwise keeps the static baseline, then wraps each time in
a schedule entry.  Pure: no credential check and no external call. -/
def optimizePostingSchedule (platform : GrowthPlatform) (timezone : String)
    (hist : Option (List PerfPost)) : ScheduleResult :=
  let times := optimalTimes platform hist
  { platform := platform,
    timezone := timezone,
    optimalPostingTimes := times.map (fun t =>
      { time := t,
        dayOfWeek := if platform = GrowthPlatform.youtube then "Thursday/Friday"
          else "Tuesday/Wednesday",
        reason := "Peak audience activity based on analytics" }),
    frequency := if platform = GrowthPlatform.youtube then "2-3 videos/week"
      else if platform = GrowthPlatform.tiktok then "1-3 videos/day" else "1 post/day",
    avoidTimes := ["02:00-06:00 (low activity)", "During major events (unless relevant)"],
    seasonalNotes := "Summer: -15% engagement. Holiday season: +30% engagement.",
    recommendation := "Post on " ++ times.headD "undefined" ++ " " ++ timezone ++
      " for maximum reach." }

/-- The normalized arguments of `repurpose_content`. -/
structure RepurposeContentArgs where
  videoTranscript : String
  videoDuration : ℚ
  targetPlatforms : List String
  clipDuration : ℚ
  deriving DecidableEq, Repr

/-- `repurposeContent`: checks the Gemini credential, invokes the
provider, extracts the first object payload (falling back to the object
with an empty `clips` array when no match), and — in the trace-log
line — reads `repurposed.clips.length`, which throws when a parsed
payload has no `clips` field. -/
def repurposeContent (env : ProcEnv) (w : GenWorld) (args : RepurposeContentArgs) :
    Except String JValue × List ExtCall :=
  match env.geminiKey with
  | none => (Except.error "GEMINI_API_KEY not found", [])
  | some _ =>
    let calls := [ExtCall.geminiGenerate "repurpose_content"]
    match extractObject w.geminiText with
    | none => (Except.ok (JValue.obj [("clips", JValue.arr [])]), calls)
    | some payload =>
      match w.jsonParse payload with
      | Except.error e => (Except.error e, calls)
      | Except.ok j =>
        match j.getField "clips" with
        | none => (Except.error "Cannot read properties of undefined (reading 'length')", calls)
        | some JValue.null =>
          (Except.error "Cannot read properties of null (reading 'length')", calls)
        | some _ => (Except.ok j, calls)

/-- The normalized arguments of `optimize_seo`. -/
structure OptimizeSEOArgs where
  title : String
  description : String
  platform : String
  niche : String
  targetAudience : Option String
  deriving DecidableEq, Repr

/-- `optimizeSEO`: lenient extraction with the empty object as default. -/
def optimizeSEO (env : ProcEnv) (w : GenWorld) (args : OptimizeSEOArgs) :
    Except String JValue × List ExtCall :=
  match env.geminiKey with
  | none => (Except.error "GEMINI_API_KEY not found", [])
  | some _ =>
    let calls := [ExtCall.geminiGenerate "optimize_seo"]
    match extractObject w.geminiText with
    | none => (Except.ok (JValue.obj []), calls)
    | some payload =>
      match w.jsonParse payload with
      | Except.error e => (Except.error e, calls)
      | Except.ok j => (Except.ok j, calls)

/-- The normalized arguments of `generate_thumbnail_concepts`. -/
structure GenerateThumbnailArgs where
  title : String
  platform : String
  niche : Option String
  style : Option String
  deriving DecidableEq, Repr

/-- The result document of `generate_thumbnail_concepts`. -/
structure ThumbnailResult where
  concepts : JValue
  abTestRecommendation : String
  toolSuggestions : List String

/-- `generateThumbnailConcepts`: lenient array extraction with the empty
array as default, wrapped with the constant recommendation strings. -/
def generateThumbnailConcepts (env : ProcEnv) (w : GenWorld) (args : GenerateThumbnailArgs) :
    Except String ThumbnailResult × List ExtCall :=
  match env.geminiKey with
  | none => (Except.error "GEMINI_API_KEY not found", [])
  | some _ =>
    let calls := [ExtCall.geminiGenerate "generate_thumbnail_concepts"]
    let wrap := fun (c : JValue) =>
      ({ concepts := c,
         abTestRecommendation := "Test top 2 concepts for 48 hours, keep winner",
         toolSuggestions :=
           ["Canva", "Photoshop", "Figma", "Midjourney (for AI generation)"] } : ThumbnailResult)
    match extractArray w.geminiText with
    | none => (Except.ok (wrap (JValue.arr [])), calls)
    | some payload =>
      match w.jsonParse payload with
      | Except.error e => (Except.error e, calls)
      | Except.ok j => (Except.ok (wrap j), calls)

/-- The normalized arguments of `run_ab_test`. -/
structure RunABTestArgs where
  element : String
  original : String
  variants : Int
  platform : String
  deriving DecidableEq, Repr

/-- `runABTest`: lenient extraction with the object carrying an empty
`variants` array as default. -/
def runABTest (env : ProcEnv) (w : GenWorld) (args : RunABTestArgs) :
    Except String JValue × List ExtCall :=
  match env.geminiKey with
  | none => (Except.error "GEMINI_API_KEY not found", [])
  | some _ =>
    let calls := [ExtCall.geminiGenerate "run_ab_test"]
    match extractObject w.geminiText with
    | none => (Except.ok (JValue.obj [("variants", JValue.arr [])]), calls)
    | some payload =>
      match w.jsonParse payload with
      | Except.error e => (Except.error e, calls)
      | Except.ok j => (Except.ok j, calls)

/-! ## Substring and line utilities used by the export-format claims -/

/-- `needle` begins `hay` (characterwise). -/
def isPrefixSeq : List Char → List Char → Bool
  | [], _ => true
  | _ :: _, [] => false
  | a :: as, b :: bs => a = b && isPrefixSeq as bs

/-- `needle` occurs contiguously somewhere in `hay`. -/
def containsSeq (needle : List Char) : List Char → Bool
  | [] => isPrefixSeq needle []
  | b :: bs => isPrefixSeq needle (b :: bs) || containsSeq needle bs

/-- `hay.includes(needle)` on strings. -/
def strContains (hay needle : String) : Bool := containsSeq needle.data hay.data

theorem isPrefixSeq_append (n post : List Char) : isPrefixSeq n (n ++ post) = true := by
  induction n with
  | nil => rfl
  | cons a as ih => simp [isPrefixSeq, ih]

theorem containsSeq_nil_needle (l : List Char) : containsSeq [] l = true := by
  cases l with
  | nil => rfl
  | cons b bs => simp [containsSeq, isPrefixSeq]

theorem containsSeq_append_left (n post : List Char) : containsSeq n (n ++ post) = true := by
  cases n with
  | nil => exact containsSeq_nil_needle _
  | cons a as =>
    have hp := isPrefixSeq_append (a :: as) post
    simp only [containsSeq, Bool.or_eq_true]
    exact Or.inl hp

theorem containsSeq_of_eq_append {n h pre post : List Char}
    (e : h = pre ++ n ++ post) : containsSeq n h = true := by
  induction pre generalizing h with
  | nil =>
    subst e
    simpa using containsSeq_append_left n post
  | cons c cs ih =>
    subst e
    show containsSeq n (c :: (cs ++ n ++ post)) = true
    simp only [containsSeq, Bool.or_eq_true]
    exact Or.inr (ih rfl)

theorem strContains_of_decomp {hay needle pre post : String}
    (e : hay = pre ++ needle ++ post) : strContains hay needle = true := by
  have h2 : hay.data = pre.data ++ needle.data ++ post.data := by
    subst e
    simp [String.data_append]
  exact containsSeq_of_eq_append h2

/-- Splitting a character list at newline characters
(the observable content of `doc.split('\n')`). -/
def splitLinesChar (l : List Char) : List (List Char) :=
  match l with
  | [] => [[]]
  | c :: rest =>
    if c = '\n' then [] :: splitLinesChar rest
    else
      match splitLinesChar rest with
      | [] => [[c]]
      | line :: more => (c :: line) :: more

/-- The lines of a document. -/
def docLines (s : String) : List String := (splitLinesChar s.data).map String.mk

/-- A well-formed timecode field `NN:NN:NN:NN` of an edit-decision line. -/
def isTimecode (s : String) : Bool :=
  match s.data with
  | [a, b, c1, d, e, c2, f, g, c3, h, i] =>
    a.isDigit && b.isDigit && (c1 = ':') && d.isDigit && e.isDigit && (c2 = ':') &&
      f.isDigit && g.isDigit && (c3 = ':') && h.isDigit && i.isDigit
  | _ => false

/-- Splitting a character list at space characters, dropping empty
fields: the whitespace tokenization of a fixed-width EDL line. -/
def spaceFields (l : List Char) : List String :=
  ((splitLinesChar (l.map (fun c => if c = ' ' then '\n' else c))).map String.mk).filter
    (fun t => t ≠ "")

/-- A well-formed edit-decision line: a three-digit sequence number, a
reel name, a track type, an edit type, and four timecodes. -/
def isEditLine (s : String) : Bool :=
  match spaceFields s.data with
  | [seqNo, _reel, _track, _edit, t1, t2, t3, t4] =>
    seqNo.length = 3 && seqNo.data.all Char.isDigit &&
      isTimecode t1 && isTimecode t2 && isTimecode t3 && isTimecode t4
  | _ => false

/-- Modelled from the spec: the FCPXML document with the voiceover
element omitted cleanly — the same template with no `asset` and no
`audio` element, only the project name interpolated. -/
def fcpxmlNoVoiceover (name : String) : String :=
  "<?xml version=\"1.0\" encoding=\"UTF-8\"?>\n<!DOCTYPE fcpxml>\n<fcpxml version=\"1.9\">\n  <resources>\n    <format id=\"r1\" name=\"FFVideoFormat1080p30\" frameDuration=\"1001/30000s\" width=\"1920\" height=\"1080\"/>\n    \n  </resources>\n  <library>\n    <event name=\"AI Generated Video\">\n      <project name=\"" ++
    name ++
    "\">\n        <sequence format=\"r1\" duration=\"60s\">\n          <spine>\n            \n            <!-- Add video clips here based on storyboard -->\n          </spine>\n        </sequence>\n      </project>\n    </event>\n  </library>\n</fcpxml>"

/-- Modelled from the spec: the Premiere XML document with the voiceover
element omitted cleanly — the same template with no audio track element. -/
def premiereNoVoiceover : String :=
  "<?xml version=\"1.0\" encoding=\"UTF-8\"?>\n<xmeml version=\"5\">\n  <sequence>\n    <name>AI Generated Video</name>\n    <duration>1800</duration>\n    <rate>\n      <timebase>30</timebase>\n    </rate>\n    <media>\n      <audio>\n        \n      </audio>\n    </media>\n  </sequence>\n</xmeml>"

/-! ## Concrete instances used by the claim witnesses -/

/-- A call with arguments failing one of the declared zod constraints of
the idea-generator tools. -/
def ideaCallWithInvalidArgs (name : String) (arguments : JValue) : Bool :=
  (name == "generate_viral_ideas" && isErr (parseGenerateIdeasArgs arguments))
    || (name == "analyze_trending_topics" && isErr (parseAnalyzeTrendsArgs arguments))
    || (name == "predict_virality" && isErr (parsePredictViralityArgs arguments))

/-- A script-outline element passing the outline item schema. -/
def mkOutline : JValue :=
  JValue.obj [("section", JValue.str "Hook"), ("duration", JValue.num 5),
    ("keyPoints", JValue.arr [JValue.str "point one"])]

/-- A generated idea passing every check of `ViralIdeaSchema`. -/
def mkValidIdea (idStr : String) : JValue :=
  JValue.obj [
    ("id", JValue.str idStr),
    ("title", JValue.str "A Valid Test Title"),
    ("hook", JValue.str "This hook stops the scroll"),
    ("platform", JValue.str "youtube"),
    ("category", JValue.str "tech"),
    ("viralScore", JValue.num 85),
    ("trendingTopics", JValue.arr [JValue.str "ai"]),
    ("targetAudience", JValue.str "developers"),
    ("thumbnailConcept", JValue.str "big arrow"),
    ("scriptOutline", JValue.arr [mkOutline]),
    ("estimatedViews", JValue.obj [("min", JValue.num 1000), ("max", JValue.num 10000),
      ("confidence", JValue.num 1)]),
    ("seo", JValue.obj [("tags", JValue.arr [JValue.str "tag1"]),
      ("description", JValue.str "desc"), ("keywords", JValue.arr [JValue.str "kw"])]),
    ("generatedAt", JValue.str "2025-01-01T00:00:00Z")]

/-- A generated idea failing `ViralIdeaSchema` (title shorter than 10). -/
def badIdeaShortTitle : JValue :=
  JValue.obj [("id", JValue.str "bad-1"), ("title", JValue.str "short")]

/-- A generated idea failing `ViralIdeaSchema` (`viralScore` above 100). -/
def badIdeaScore : JValue :=
  JValue.obj [
    ("id", JValue.str "bad-2"),
    ("title", JValue.str "Another Valid Title"),
    ("hook", JValue.str "This hook stops the scroll"),
    ("platform", JValue.str "youtube"),
    ("category", JValue.str "tech"),
    ("viralScore", JValue.num 150),
    ("trendingTopics", JValue.arr [JValue.str "ai"]),
    ("targetAudience", JValue.str "developers"),
    ("thumbnailConcept", JValue.str "big arrow"),
    ("scriptOutline", JValue.arr [mkOutline]),
    ("estimatedViews", JValue.obj [("min", JValue.num 1000), ("max", JValue.num 10000),
      ("confidence", JValue.num 1)]),
    ("seo", JValue.obj [("tags", JValue.arr [JValue.str "tag1"]),
      ("description", JValue.str "desc"), ("keywords", JValue.arr [JValue.str "kw"])]),
    ("generatedAt", JValue.str "2025-01-01T00:00:00Z")]

/-- A generated array of 5 elements of which exactly 2 fail validation. -/
def ideasFive : List JValue :=
  [mkValidIdea "idea-1", badIdeaShortTitle, mkValidIdea "idea-2", badIdeaScore,
    mkValidIdea "idea-3"]

/-- Arguments satisfying `GenerateIdeasArgsSchema` (no `trendWindow`). -/
def goodIdeaArgsJson : JValue :=
  JValue.obj [("niche", JValue.str "tech"), ("platform", JValue.str "youtube"),
    ("count", JValue.num 20)]

/-- Arguments violating the `count` range constraint (5 < 10). -/
def badCountArgsJson : JValue :=
  JValue.obj [("niche", JValue.str "tech"), ("platform", JValue.str "youtube"),
    ("count", JValue.num 5)]

/-- Arguments violating the `platform` enum constraint. -/
def badPlatformArgsJson : JValue :=
  JValue.obj [("title", JValue.str "t"), ("description", JValue.str "d"),
    ("platform", JValue.str "myspace"), ("niche", JValue.str "tech")]

/-- Provider text with no curly brace and no bracket at all. -/
def noJsonGen : GenWorld :=
  { geminiText := "no structured payload here", jsonParse := fun _ => Except.error "unreachable" }

/-- Trend world where the Reddit source fails and YouTube succeeds. -/
def trendWorldRedditDown : TrendEnv := { youtubeOk := true, redditPosts := none }

/-- Idea-server world with brace-free provider text. -/
def ideaWorldNoJson : IdeaWorld := { trend := trendWorldRedditDown, gen := noJsonGen }

/-- Provider world returning the five-element ideas array. -/
def fiveIdeasGen : GenWorld :=
  { geminiText := "[payload]", jsonParse := fun _ => Except.ok (JValue.arr ideasFive) }

/-- Idea-server world returning the five-element ideas array. -/
def ideaWorldFive : IdeaWorld := { trend := trendWorldRedditDown, gen := fiveIdeasGen }

/-- Environment with every credential present. -/
def envAllKeys : ProcEnv :=
  { geminiKey := some "gk", elevenLabsKey := some "ek", huggingFaceKey := some "hk" }

/-- Environment with every credential absent. -/
def envNoKeys : ProcEnv :=
  { geminiKey := none, elevenLabsKey := none, huggingFaceKey := none }

/-- The posting-schedule samples of the spec's worked example: hours
9, 9 and 14, views 100, 300 and 50, engagement 50, 70 and 90. -/
def samplePosts : List PerfPost :=
  [{ postHour := 9, views := 100, engagement := 50 },
   { postHour := 9, views := 300, engagement := 70 },
   { postHour := 14, views := 50, engagement := 90 }]

/-- A single history sample (hour 13). -/
def singlePost : List PerfPost :=
  [{ postHour := 13, views := 500, engagement := 20 }]

/-- The documented default result of `generate_thumbnail_concepts` when
no array payload is found: empty concepts plus the constant wrapper. -/
def thumbnailDefaultResult : ThumbnailResult :=
  { concepts := JValue.arr [],
    abTestRecommendation := "Test top 2 concepts for 48 hours, keep winner",
    toolSuggestions := ["Canva", "Photoshop", "Figma", "Midjourney (for AI generation)"] }

/-- Concrete valid arguments for `generate_video_script`. -/
def sampleScriptArgs : GenerateScriptArgs :=
  { idea := { title := "t", hook := "h", platform := "youtube", duration := 60,
              outline := none },
    tone := "casual", includeVoiceover := true, includeBRoll := true }

/-- Concrete valid arguments for `generate_storyboard`. -/
def sampleStoryboardArgs : GenerateStoryboardArgs :=
  { script := "s", platform := "youtube", visualStyle := "hybrid" }

/-- The normalized record produced by parsing `goodIdeaArgsJson`. -/
def goodIdeaArgsParsed : GenerateIdeasArgs :=
  { niche := "tech", platform := "youtube", count := 20, trendWindow := "7d" }

/-- Convenience constructor for `export_editing_project` arguments. -/
def mkExportArgs (t vp : Option String) (f : ExportFormat) : ExportProjectArgs :=
  { storyboardTitle := t, voiceoverPath := vp, format := f }

/-! ## Support lemmas -/

theorem strAppendNil (s : String) : s ++ "" = s := by
  cases s with
  | mk d => show String.mk (d ++ []) = String.mk d; rw [List.append_nil]

theorem length_filter_add_length_filter_not {α : Type} (p : α → Bool) (l : List α) :
    (l.filter p).length + (l.filter (fun a => !(p a))).length = l.length := by
  induction l with
  | nil => rfl
  | cons x xs ih =>
    rw [List.filter_cons, List.filter_cons]
    cases h : p x with
    | true =>
      simp only [h, Bool.not_true, if_true, List.length_cons]
      simp only [show ((false = true) = False) by simp, if_false]
      omega
    | false =>
      simp only [h, Bool.not_false, if_true, List.length_cons]
      simp only [show ((false = true) = False) by simp, if_false]
      omega

theorem firstSeenDedup_sublist (l : List String) :
    List.Sublist (firstSeenDedup l) l := by
  induction l using firstSeenDedup.induct with
  | case1 => rw [firstSeenDedup]
  | case2 x xs ih =>
    rw [firstSeenDedup]
    exact List.Sublist.cons₂ x (ih.trans (List.filter_sublist xs))

theorem mem_firstSeenDedup_iff (a : String) (l : List String) :
    a ∈ firstSeenDedup l ↔ a ∈ l := by
  induction l using firstSeenDedup.induct with
  | case1 => simp [firstSeenDedup]
  | case2 x xs ih =>
    rw [firstSeenDedup]
    constructor
    · intro h
      rcases List.mem_cons.mp h with h | h
      · exact h ▸ List.mem_cons_self x xs
      · exact List.mem_cons_of_mem x (List.mem_of_mem_filter (ih.mp h))
    · intro h
      rcases List.mem_cons.mp h with h | h
      · exact h ▸ List.mem_cons_self x _
      · by_cases hax : a = x
        · exact hax ▸ List.mem_cons_self x _
        · exact List.mem_cons_of_mem x
            (ih.mpr (List.mem_filter.mpr ⟨h, by simpa using hax⟩))

theorem firstSeenDedup_nodup (l : List String) : (firstSeenDedup l).Nodup := by
  induction l using firstSeenDedup.induct with
  | case1 => simp [firstSeenDedup]
  | case2 x xs ih =>
    rw [firstSeenDedup]
    refine List.nodup_cons.mpr ⟨?_, ih⟩
    intro hmem
    have hfil := (mem_firstSeenDedup_iff x _).mp hmem
    have := List.of_mem_filter hfil
    simp at this

theorem regexSlice_eq_none_of_not_mem {o c : Char} {l : List Char} (h : o ∉ l) :
    regexSlice o c l = none := by
  induction l with
  | nil => rfl
  | cons x xs ih =>
    have hxo : ¬(x = o) := fun hx => h (List.mem_cons.mpr (Or.inl hx.symm))
    rw [regexSlice, if_neg hxo]
    exact ih (fun hm => h (List.mem_cons_of_mem x hm))

theorem extractObject_eq_none_of_no_brace {s : String} (h : braceOpen ∉ s.data) :
    extractObject s = none := by
  unfold extractObject
  rw [regexSlice_eq_none_of_not_mem h]
  rfl

theorem extractArray_eq_none_of_no_bracket {s : String} (h : '[' ∉ s.data) :
    extractArray s = none := by
  unfold extractArray
  rw [regexSlice_eq_none_of_not_mem h]
  rfl

theorem length_sortEngDesc (l : List HourStat) : (sortEngDesc l).length = l.length :=
  (List.perm_insertionSort engGe l).length_eq

theorem sorted_sortEngDesc (l : List HourStat) : (sortEngDesc l).Pairwise engGe :=
  List.sorted_insertionSort engGe l

/-! ## Claim theorems -/

/-- C7: for every trend-scraper call, the result is total (no failure
propagates), equals the first-seen deduplication of the topics gathered
from the succeeding platform sources (duplicate-free, membership
preserved, order a sublist of the push order), and in particular when
the Reddit source alone fails among the three requested platforms the
topics of the two succeeding sources all still appear. -/
theorem claim_C7 :
    (∀ (niche : String) (platforms : List String) (w : TrendEnv),
      (scrapeTrendingTopics niche platforms w).1
          = firstSeenDedup (gatheredTopics niche platforms w)
        ∧ ((scrapeTrendingTopics niche platforms w).1).Nodup
        ∧ (∀ t, t ∈ (scrapeTrendingTopics niche platforms w).1
            ↔ t ∈ gatheredTopics niche platforms w)
        ∧ List.Sublist (scrapeTrendingTopics niche platforms w).1
            (gatheredTopics niche platforms w))
    ∧ (∀ (niche : String) (w : TrendEnv), w.youtubeOk = true → w.redditPosts = none →
        ∀ t, t ∈ ytDerivedTopics niche ++ googleTrendsTopics niche →
          t ∈ (scrapeTrendingTopics niche ["youtube", "reddit", "google-trends"] w).1) := by
  constructor
  · intro niche platforms w
    exact ⟨rfl, firstSeenDedup_nodup _, fun t => mem_firstSeenDedup_iff t _,
      firstSeenDedup_sublist _⟩
  · intro niche w hyt hrd t ht
    show t ∈ firstSeenDedup (gatheredTopics niche ["youtube", "reddit", "google-trends"] w)
    rw [mem_firstSeenDedup_iff]
    have h1 : (["youtube", "reddit", "google-trends"] : List String).contains "youtube" = true := by
      decide
    have h2 : (["youtube", "reddit", "google-trends"] : List String).contains "twitter" = false := by
      decide
    have h3 : (["youtube", "reddit", "google-trends"] : List String).contains "reddit" = true := by
      decide
    have h4 :
        (["youtube", "reddit", "google-trends"] : List String).contains "google-trends" = true := by
      decide
    rcases List.mem_append.mp ht with h | h
    · simp [gatheredTopics, h1, h2, h3, h4, hyt, hrd, h]
    · simp [gatheredTopics, h1, h2, h3, h4, hyt, hrd, h]

/-- C7 witness: the resilience clause at a concrete niche with the
Reddit source down. -/
theorem claim_C7_witness :
    trendWorldRedditDown.youtubeOk = true ∧ trendWorldRedditDown.redditPosts = none ∧
      "tech tutorial" ∈
        (scrapeTrendingTopics "tech" ["youtube", "reddit", "google-trends"]
          trendWorldRedditDown).1 :=
  ⟨rfl, rfl,
    claim_C7.2 "tech" trendWorldRedditDown rfl rfl "tech tutorial" (by decide)⟩

/-- C4: for every lenient generative handler, when the provider text
contains no curly brace and no bracket at all the handler returns its
documented default — the empty ideas list, the constant virality object
with `overallScore` 50, the empty-`clips` object, the empty SEO object,
the empty thumbnail-concepts array, the empty-`variants` object — and
the wrapped call carries no error envelope. -/
theorem claim_C4 :
    ∀ (env : ProcEnv) (te : TrendEnv) (gw : GenWorld) (k tr : String)
      (a1 : GenerateIdeasArgs) (a2 : PredictViralityArgs) (a3 : RepurposeContentArgs)
      (a4 : OptimizeSEOArgs) (a5 : GenerateThumbnailArgs) (a6 : RunABTestArgs),
      env.geminiKey = some k →
      braceOpen ∉ gw.geminiText.data → '[' ∉ gw.geminiText.data →
      ((generateViralIdeas env ⟨te, gw⟩ a1).1 = Except.ok []
        ∧ (runToolCall tr (generateViralIdeas env ⟨te, gw⟩ a1)).1.isError = false)
      ∧ ((predictVirality env ⟨te, gw⟩ a2).1
            = Except.ok (JValue.obj [("overallScore", JValue.num 50)])
        ∧ (runToolCall tr (predictVirality env ⟨te, gw⟩ a2)).1.isError = false)
      ∧ ((repurposeContent env gw a3).1 = Except.ok (JValue.obj [("clips", JValue.arr [])])
        ∧ (runToolCall tr (repurposeContent env gw a3)).1.isError = false)
      ∧ ((optimizeSEO env gw a4).1 = Except.ok (JValue.obj [])
        ∧ (runToolCall tr (optimizeSEO env gw a4)).1.isError = false)
      ∧ ((generateThumbnailConcepts env gw a5).1 = Except.ok thumbnailDefaultResult
        ∧ (runToolCall tr (generateThumbnailConcepts env gw a5)).1.isError = false)
      ∧ ((runABTest env gw a6).1 = Except.ok (JValue.obj [("variants", JValue.arr [])])
        ∧ (runToolCall tr (runABTest env gw a6)).1.isError = false) := by
  intro env te gw k tr a1 a2 a3 a4 a5 a6 hkey hbrace hbracket
  have hobj := extractObject_eq_none_of_no_brace hbrace
  have harr := extractArray_eq_none_of_no_bracket hbracket
  refine ⟨⟨?_, ?_⟩, ⟨?_, ?_⟩, ⟨?_, ?_⟩, ⟨?_, ?_⟩, ⟨?_, ?_⟩, ⟨?_, ?_⟩⟩ <;>
    simp [generateViralIdeas, predictVirality, repurposeContent, optimizeSEO,
      generateThumbnailConcepts, runABTest, thumbnailDefaultResult, hkey, hobj, harr,
      runToolCall, Envelope.isError]

/-- C4 witness: the lenient defaults at a concrete environment and a
concrete brace-free provider text. -/
theorem claim_C4_witness :
    envAllKeys.geminiKey = some "gk" ∧
      (generateViralIdeas envAllKeys ideaWorldNoJson
          { niche := "tech", platform := "youtube", count := 20, trendWindow := "7d" }).1
        = Except.ok [] ∧
      (predictVirality envAllKeys ideaWorldNoJson
          { title := "t", description := "d", platform := "youtube", niche := "tech" }).1
        = Except.ok (JValue.obj [("overallScore", JValue.num 50)]) ∧
      (repurposeContent envAllKeys noJsonGen
          { videoTranscript := "words", videoDuration := 300,
            targetPlatforms := ["tiktok"], clipDuration := 45 }).1
        = Except.ok (JValue.obj [("clips", JValue.arr [])]) := by
  have h := claim_C4 envAllKeys trendWorldRedditDown noJsonGen "gk" "trace-0"
    { niche := "tech", platform := "youtube", count := 20, trendWindow := "7d" }
    { title := "t", description := "d", platform := "youtube", niche := "tech" }
    { videoTranscript := "words", videoDuration := 300,
      targetPlatforms := ["tiktok"], clipDuration := 45 }
    { title := "t", description := "d", platform := "youtube", niche := "tech",
      targetAudience := none }
    { title := "t", platform := "youtube", niche := none, style := none }
    { element := "title", original := "o", variants := 3, platform := "youtube" }
    rfl (by decide) (by decide)
  exact ⟨rfl, h.1.1, h.2.1.1, h.2.2.1.1⟩

/-- C2 (amended): when the provider text contains no substring matching
the JSON object pattern, `generate_video_script` is strict — it throws
`Failed to extract JSON from AI response`, which the caller receives as
an error envelope with that message — while `generate_storyboard` is
lenient: it silently falls back to the object with an empty `shots`
array and the caller receives a success envelope. -/
theorem claim_C2 :
    ∀ (env : ProcEnv) (gw : GenWorld) (k tr : String)
      (aScript : GenerateScriptArgs) (aSb : GenerateStoryboardArgs),
      env.geminiKey = some k →
      extractObject gw.geminiText = none →
      (runToolCall tr (generateVideoScript env gw aScript)).1
          = Envelope.failure "Failed to extract JSON from AI response" tr
      ∧ (runToolCall tr (generateStoryboard env gw aSb)).1
          = Envelope.success (JValue.obj [("shots", JValue.arr [])]) := by
  intro env gw k tr aScript aSb hkey hobj
  constructor
  · simp [generateVideoScript, hkey, hobj, runToolCall]
  · simp [generateStoryboard, hkey, hobj, runToolCall]

/-- C2 counterexample: at a concrete provider text with no JSON object
pattern, the `generate_storyboard` call does not produce an error
envelope — it succeeds with the empty-`shots` fallback — refuting the
claim that the storyboard handler fails with an extraction-failure
condition. -/
theorem claim_C2_counterexample :
    (runToolCall "trace-1" (generateStoryboard envAllKeys noJsonGen
        sampleStoryboardArgs)).1.isError = false
    ∧ (runToolCall "trace-1" (generateStoryboard envAllKeys noJsonGen
        sampleStoryboardArgs)).1
      = Envelope.success (JValue.obj [("shots", JValue.arr [])]) := by
  exact ⟨rfl, rfl⟩

/-- C2 witness: the amended statement at a concrete environment,
provider text and arguments. -/
theorem claim_C2_witness :
    envAllKeys.geminiKey = some "gk" ∧ extractObject noJsonGen.geminiText = none ∧
      (runToolCall "trace-2" (generateVideoScript envAllKeys noJsonGen sampleScriptArgs)).1
        = Envelope.failure "Failed to extract JSON from AI response" "trace-2" :=
  ⟨rfl, rfl,
    (claim_C2 envAllKeys noJsonGen "gk" "trace-2" sampleScriptArgs sampleStoryboardArgs
      rfl rfl).1⟩

/-- C6: a tool call whose handler requires an absent credential fails
immediately with a message naming the credential, the caller receives an
error envelope, and no external capability is invoked: the Gemini
handlers (shown at the idea-server dispatcher and at every embedded
generative handler) and both voiceover providers. -/
theorem claim_C6 :
    (∀ (env : ProcEnv) (w : IdeaWorld) (tr : String) (rawA : JValue),
      env.geminiKey = none → isErr (parseGenerateIdeasArgs rawA) = false →
      handleIdeaToolCall env w tr "generate_viral_ideas" rawA
        = (Envelope.failure "GEMINI_API_KEY not found" tr, []))
    ∧ (∀ (env : ProcEnv) (w : IdeaWorld) (tr : String) (rawA : JValue),
      env.geminiKey = none → isErr (parsePredictViralityArgs rawA) = false →
      handleIdeaToolCall env w tr "predict_virality" rawA
        = (Envelope.failure "GEMINI_API_KEY not found" tr, []))
    ∧ (∀ (env : ProcEnv) (gw : GenWorld) (a : GenerateScriptArgs), env.geminiKey = none →
      generateVideoScript env gw a = (Except.error "GEMINI_API_KEY not found", []))
    ∧ (∀ (env : ProcEnv) (gw : GenWorld) (a : GenerateStoryboardArgs), env.geminiKey = none →
      generateStoryboard env gw a = (Except.error "GEMINI_API_KEY not found", []))
    ∧ (∀ (env : ProcEnv) (gw : GenWorld) (a : OptimizeSEOArgs), env.geminiKey = none →
      optimizeSEO env gw a = (Except.error "GEMINI_API_KEY not found", []))
    ∧ (∀ (env : ProcEnv) (gw : GenWorld) (a : GenerateThumbnailArgs), env.geminiKey = none →
      generateThumbnailConcepts env gw a = (Except.error "GEMINI_API_KEY not found", []))
    ∧ (∀ (env : ProcEnv) (gw : GenWorld) (a : RepurposeContentArgs), env.geminiKey = none →
      repurposeContent env gw a = (Except.error "GEMINI_API_KEY not found", []))
    ∧ (∀ (env : ProcEnv) (gw : GenWorld) (a : RunABTestArgs), env.geminiKey = none →
      runABTest env gw a = (Except.error "GEMINI_API_KEY not found", []))
    ∧ (∀ (env : ProcEnv) (w : TtsWorld) (tr : String) (a : GenerateVoiceoverArgs),
      a.provider = TtsProvider.elevenlabs → env.elevenLabsKey = none →
      generateVoiceover env w tr a
        = (Except.error "ELEVENLABS_API_KEY not found. Set it or use provider: \"huggingface\"", []))
    ∧ (∀ (env : ProcEnv) (w : TtsWorld) (tr : String) (a : GenerateVoiceoverArgs),
      a.provider = TtsProvider.huggingface → env.huggingFaceKey = none →
      generateVoiceover env w tr a = (Except.error "HUGGINGFACE_API_KEY not found", [])) := by
  refine ⟨?_, ?_, ?_, ?_, ?_, ?_, ?_, ?_, ?_, ?_⟩
  · intro env w tr rawA hkey hargs
    cases hp : parseGenerateIdeasArgs rawA with
    | error e => rw [hp] at hargs; exact absurd hargs (by simp [isErr])
    | ok args => simp [handleIdeaToolCall, hp, generateViralIdeas, hkey]
  · intro env w tr rawA hkey hargs
    cases hp : parsePredictViralityArgs rawA with
    | error e => rw [hp] at hargs; exact absurd hargs (by simp [isErr])
    | ok args => simp [handleIdeaToolCall, hp, predictVirality, hkey]
  · intro env gw a hkey; simp [generateVideoScript, hkey]
  · intro env gw a hkey; simp [generateStoryboard, hkey]
  · intro env gw a hkey; simp [optimizeSEO, hkey]
  · intro env gw a hkey; simp [generateThumbnailConcepts, hkey]
  · intro env gw a hkey; simp [repurposeContent, hkey]
  · intro env gw a hkey; simp [runABTest, hkey]
  · intro env w tr a hprov hkey; simp [generateVoiceover, hprov, hkey]
  · intro env w tr a hprov hkey; simp [generateVoiceover, hprov, hkey]

/-- C6 witness: concrete missing-credential calls — the idea-server
dispatcher without `GEMINI_API_KEY` and both voiceover providers
without their keys — each yielding the naming error envelope and an
empty external-call log. -/
theorem claim_C6_witness :
    envNoKeys.geminiKey = none ∧ isErr (parseGenerateIdeasArgs goodIdeaArgsJson) = false ∧
      handleIdeaToolCall envNoKeys ideaWorldNoJson "trace-3" "generate_viral_ideas"
          goodIdeaArgsJson
        = (Envelope.failure "GEMINI_API_KEY not found" "trace-3", []) ∧
      generateVoiceover envNoKeys { ttsResult := Except.ok () } "trace-3"
          { script := "s", voice := "neutral", provider := TtsProvider.elevenlabs,
            format := "mp3" }
        = (Except.error "ELEVENLABS_API_KEY not found. Set it or use provider: \"huggingface\"",
            []) ∧
      generateVoiceover envNoKeys { ttsResult := Except.ok () } "trace-3"
          { script := "s", voice := "neutral", provider := TtsProvider.huggingface,
            format := "mp3" }
        = (Except.error "HUGGINGFACE_API_KEY not found", []) :=
  ⟨rfl, rfl,
    claim_C6.1 envNoKeys ideaWorldNoJson "trace-3" goodIdeaArgsJson rfl rfl,
    (claim_C6.2.2.2.2.2.2.2.2.1 envNoKeys { ttsResult := Except.ok () } "trace-3"
      { script := "s", voice := "neutral", provider := TtsProvider.elevenlabs,
        format := "mp3" } rfl rfl),
    (claim_C6.2.2.2.2.2.2.2.2.2 envNoKeys { ttsResult := Except.ok () } "trace-3"
      { script := "s", voice := "neutral", provider := TtsProvider.huggingface,
        format := "mp3" } rfl rfl)⟩

/-- C5: for every idea-server tool call whose arguments violate a
declared required-field, enum or numeric-range constraint of that
tool's zod schema, the dispatcher returns an error envelope and the
external-call log is empty — no external capability is invoked. -/
theorem claim_C5 :
    ∀ (env : ProcEnv) (w : IdeaWorld) (tr name : String) (args : JValue),
      ideaCallWithInvalidArgs name args = true →
      (handleIdeaToolCall env w tr name args).1.isError = true
      ∧ (handleIdeaToolCall env w tr name args).2 = [] := by
  intro env w tr name args hinv
  unfold ideaCallWithInvalidArgs at hinv
  rcases Bool.or_eq_true_iff.mp hinv with h | h
  · rcases Bool.or_eq_true_iff.mp h with h | h
    · have hname : name = "generate_viral_ideas" :=
        eq_of_beq (Bool.and_eq_true_iff.mp h).1
      have herr := (Bool.and_eq_true_iff.mp h).2
      subst hname
      cases hp : parseGenerateIdeasArgs args with
      | error e => simp [handleIdeaToolCall, hp, Envelope.isError]
      | ok v => rw [hp] at herr; exact absurd herr (by simp [isErr])
    · have hname : name = "analyze_trending_topics" :=
        eq_of_beq (Bool.and_eq_true_iff.mp h).1
      have herr := (Bool.and_eq_true_iff.mp h).2
      subst hname
      cases hp : parseAnalyzeTrendsArgs args with
      | error e => simp [handleIdeaToolCall, hp, Envelope.isError]
      | ok v => rw [hp] at herr; exact absurd herr (by simp [isErr])
  · have hname : name = "predict_virality" :=
      eq_of_beq (Bool.and_eq_true_iff.mp h).1
    have herr := (Bool.and_eq_true_iff.mp h).2
    subst hname
    cases hp : parsePredictViralityArgs args with
    | error e => simp [handleIdeaToolCall, hp, Envelope.isError]
    | ok v => rw [hp] at herr; exact absurd herr (by simp [isErr])

/-- C5 witness: a concrete `generate_viral_ideas` call with `count` 5
(outside the inclusive range 10..50) and a concrete `predict_virality`
call with an undeclared platform enum value, each rejected with an
error envelope and an empty external-call log. -/
theorem claim_C5_witness :
    ideaCallWithInvalidArgs "generate_viral_ideas" badCountArgsJson = true ∧
      (handleIdeaToolCall envAllKeys ideaWorldNoJson "trace-4" "generate_viral_ideas"
          badCountArgsJson).1.isError = true ∧
      (handleIdeaToolCall envAllKeys ideaWorldNoJson "trace-4" "generate_viral_ideas"
          badCountArgsJson).2 = [] ∧
      ideaCallWithInvalidArgs "predict_virality" badPlatformArgsJson = true ∧
      (handleIdeaToolCall envAllKeys ideaWorldNoJson "trace-4" "predict_virality"
          badPlatformArgsJson).1.isError = true ∧
      (handleIdeaToolCall envAllKeys ideaWorldNoJson "trace-4" "predict_virality"
          badPlatformArgsJson).2 = [] := by
  refine ⟨by decide, ?_, ?_, by decide, ?_, ?_⟩
  · exact (claim_C5 envAllKeys ideaWorldNoJson "trace-4" "generate_viral_ideas"
      badCountArgsJson (by decide)).1
  · exact (claim_C5 envAllKeys ideaWorldNoJson "trace-4" "generate_viral_ideas"
      badCountArgsJson (by decide)).2
  · exact (claim_C5 envAllKeys ideaWorldNoJson "trace-4" "predict_virality"
      badPlatformArgsJson (by decide)).1
  · exact (claim_C5 envAllKeys ideaWorldNoJson "trace-4" "predict_virality"
      badPlatformArgsJson (by decide)).2

/-- C9: `trendWindow` is validated and defaulted by the argument schema
but never read afterwards — two valid argument records differing only
in `trendWindow` produce identical results and identical external
requests under the same provider and trend-source responses — and the
platform list passed to the trend scraper is hard-coded to
`youtube, reddit, google-trends` whatever the arguments say. -/
theorem claim_C9 :
    (∀ (env : ProcEnv) (w : IdeaWorld) (a : GenerateIdeasArgs) (tw : String),
      generateViralIdeas env w { a with trendWindow := tw } = generateViralIdeas env w a)
    ∧ (∀ (env : ProcEnv) (w : IdeaWorld) (a : GenerateIdeasArgs) (k : String),
      env.geminiKey = some k →
      (generateViralIdeas env w a).2
        = [ExtCall.youtubeTrendsFetch, ExtCall.redditFetch a.niche,
            ExtCall.geminiGenerateIdeas a.niche a.platform a.count
              (firstSeenDedup
                (gatheredTopics a.niche ["youtube", "reddit", "google-trends"] w.trend))])
    ∧ (∀ (n : String),
      parseGenerateIdeasArgs
          (JValue.obj [("niche", JValue.str n), ("platform", JValue.str "youtube"),
            ("count", JValue.num 20)])
        = Except.ok { niche := n, platform := "youtube", count := 20, trendWindow := "7d" })
    ∧ isErr (parseGenerateIdeasArgs
        (JValue.obj [("niche", JValue.str "t"), ("platform", JValue.str "youtube"),
          ("count", JValue.num 20), ("trendWindow", JValue.str "48h")])) = true := by
  refine ⟨?_, ?_, ?_, by decide⟩
  · intro env w a tw
    rfl
  · intro env w a k hkey
    have hy : (["youtube", "reddit", "google-trends"] : List String).contains "youtube"
        = true := by decide
    have hr : (["youtube", "reddit", "google-trends"] : List String).contains "reddit"
        = true := by decide
    unfold generateViralIdeas
    rw [hkey]
    cases hx : extractArray w.gen.geminiText with
    | none => simp [scrapeTrendingTopics, trendCalls, hy, hr, hx]
    | some p =>
      cases hp : w.gen.jsonParse p with
      | error e => simp [scrapeTrendingTopics, trendCalls, hy, hr, hx, hp]
      | ok j => cases j <;> simp [scrapeTrendingTopics, trendCalls, hy, hr, hx, hp]
  · intro n
    rfl

/-- C9 witness: the invariance and the hard-coded scraper platforms at
a concrete argument record and world. -/
theorem claim_C9_witness :
    envAllKeys.geminiKey = some "gk" ∧
      generateViralIdeas envAllKeys ideaWorldFive
          { niche := "tech", platform := "youtube", count := 20, trendWindow := "30d" }
        = generateViralIdeas envAllKeys ideaWorldFive
            { niche := "tech", platform := "youtube", count := 20, trendWindow := "7d" } ∧
      (generateViralIdeas envAllKeys ideaWorldFive
          { niche := "tech", platform := "youtube", count := 20, trendWindow := "7d" }).2
        = [ExtCall.youtubeTrendsFetch, ExtCall.redditFetch "tech",
            ExtCall.geminiGenerateIdeas "tech" "youtube" 20
              (firstSeenDedup (gatheredTopics "tech" ["youtube", "reddit", "google-trends"]
                trendWorldRedditDown))] :=
  ⟨rfl,
    claim_C9.1 envAllKeys ideaWorldFive
      { niche := "tech", platform := "youtube", count := 20, trendWindow := "7d" } "30d",
    claim_C9.2.1 envAllKeys ideaWorldFive
      { niche := "tech", platform := "youtube", count := 20, trendWindow := "7d" } "gk" rfl⟩

/-- C3: when the extracted provider array parses to `n` elements of
which `m` fail `ViralIdeaSchema` validation, the call succeeds — it is
never failed by an element-validation failure — returning exactly the
surviving elements in order (every failing element absent, every
survivor valid), and the reported `count` equals the number of
survivors, i.e. `n - m`. -/
theorem claim_C3 :
    ∀ (env : ProcEnv) (w : IdeaWorld) (tr : String) (rawA : JValue)
      (args : GenerateIdeasArgs) (k payload : String) (elems : List JValue),
      env.geminiKey = some k →
      parseGenerateIdeasArgs rawA = Except.ok args →
      extractArray w.gen.geminiText = some payload →
      w.gen.jsonParse payload = Except.ok (JValue.arr elems) →
      (handleIdeaToolCall env w tr "generate_viral_ideas" rawA).1
        = Envelope.success (IdeaPayload.ideasResult (elems.filter isValidIdea)
            (elems.filter isValidIdea).length)
      ∧ (elems.filter isValidIdea).length
          + (elems.filter (fun e => !(isValidIdea e))).length = elems.length
      ∧ List.Sublist (elems.filter isValidIdea) elems
      ∧ (∀ e, isValidIdea e = false → e ∉ elems.filter isValidIdea)
      ∧ (∀ e ∈ elems.filter isValidIdea, isValidIdea e = true) := by
  intro env w tr rawA args k payload elems hkey hparse hx hp
  refine ⟨?_, length_filter_add_length_filter_not isValidIdea elems,
    List.filter_sublist elems, ?_, ?_⟩
  · simp [handleIdeaToolCall, hparse, generateViralIdeas, hkey, hx, hp]
  · intro e hbad hmem
    have := List.of_mem_filter hmem
    rw [hbad] at this
    exact absurd this (by simp)
  · intro e hmem
    exact List.of_mem_filter hmem

/-- C3 witness: a generated array of 5 elements of which exactly 2 fail
structural validation yields a success envelope with exactly the 3
surviving elements and `count` 3, the failing elements absent. -/
theorem claim_C3_witness :
    envAllKeys.geminiKey = some "gk" ∧
      parseGenerateIdeasArgs goodIdeaArgsJson = Except.ok goodIdeaArgsParsed ∧
      extractArray fiveIdeasGen.geminiText = some "[payload]" ∧
      fiveIdeasGen.jsonParse "[payload]" = Except.ok (JValue.arr ideasFive) ∧
      ideasFive.length = 5 ∧
      isValidIdea badIdeaShortTitle = false ∧ isValidIdea badIdeaScore = false ∧
      ideasFive.filter isValidIdea
        = [mkValidIdea "idea-1", mkValidIdea "idea-2", mkValidIdea "idea-3"] ∧
      (ideasFive.filter isValidIdea).length = 3 ∧
      (handleIdeaToolCall envAllKeys ideaWorldFive "trace-5" "generate_viral_ideas"
          goodIdeaArgsJson).1
        = Envelope.success (IdeaPayload.ideasResult (ideasFive.filter isValidIdea)
            (ideasFive.filter isValidIdea).length) := by
  refine ⟨rfl, rfl, by decide, rfl, by decide, by decide, by decide, rfl, by decide, ?_⟩
  exact (claim_C3 envAllKeys ideaWorldFive "trace-5" goodIdeaArgsJson
    goodIdeaArgsParsed "gk" "[payload]" ideasFive rfl rfl (by decide) rfl).1

theorem distinctHours_samplePosts : distinctHours samplePosts = [9, 14] := by decide

theorem hourStat_samplePosts_9 :
    hourStat samplePosts 9 = { hour := 9, avgViews := 200, avgEngagement := 60 } := by
  have hb : bucket samplePosts 9
      = [{ postHour := 9, views := 100, engagement := 50 },
          { postHour := 9, views := 300, engagement := 70 }] := by decide
  rw [hourStat, hb]
  simp only [List.map_cons, List.map_nil, List.sum_cons, List.sum_nil, List.length_cons,
    List.length_nil, HourStat.mk.injEq]
  norm_num

theorem hourStat_samplePosts_14 :
    hourStat samplePosts 14 = { hour := 14, avgViews := 50, avgEngagement := 90 } := by
  have hb : bucket samplePosts 14 = [{ postHour := 14, views := 50, engagement := 90 }] := by
    decide
  rw [hourStat, hb]
  simp only [List.map_cons, List.map_nil, List.sum_cons, List.sum_nil, List.length_cons,
    List.length_nil, HourStat.mk.injEq]
  norm_num

theorem hourStats_samplePosts :
    hourStats samplePosts
      = [{ hour := 9, avgViews := 200, avgEngagement := 60 },
          { hour := 14, avgViews := 50, avgEngagement := 90 }] := by
  rw [hourStats, distinctHours_samplePosts]
  simp [hourStat_samplePosts_9, hourStat_samplePosts_14]

theorem optimalTimes_samplePosts (p : GrowthPlatform) :
    optimalTimes p (some samplePosts) = ["14:00", "09:00"] := by
  simp only [optimalTimes, hourStats_samplePosts]
  rw [if_pos (by decide : 0 < samplePosts.length)]
  decide

theorem hourStat_singlePost_13 :
    hourStat singlePost 13 = { hour := 13, avgViews := 500, avgEngagement := 20 } := by
  have hb : bucket singlePost 13 = [{ postHour := 13, views := 500, engagement := 20 }] := by
    decide
  rw [hourStat, hb]
  simp only [List.map_cons, List.map_nil, List.sum_cons, List.sum_nil, List.length_cons,
    List.length_nil, HourStat.mk.injEq]
  norm_num

theorem hourStats_singlePost :
    hourStats singlePost = [{ hour := 13, avgViews := 500, avgEngagement := 20 }] := by
  have hd : distinctHours singlePost = [13] := by decide
  rw [hourStats, hd]
  simp [hourStat_singlePost_13]

theorem optimalTimes_singlePost (p : GrowthPlatform) :
    optimalTimes p (some singlePost) = ["13:00"] := by
  simp only [optimalTimes, hourStats_singlePost]
  rw [if_pos (by decide : 0 < singlePost.length)]
  decide

/-- C1: with a non-empty history, the handler overrides the baseline
table and returns as `optimalPostingTimes` the top 3 bucket hours —
formatted `HH:00` — ranked in descending order of the buckets' mean
engagement, each bucket mean being the bucket sum divided by the bucket
count; on the spec's worked samples the bucket means are 60 (hour 9,
views mean 200) and 90 (hour 14), and hour 14 ranks first. -/
theorem claim_C1 :
    (∀ (p : GrowthPlatform) (tz : String) (hist : List PerfPost), hist ≠ [] →
      ((optimizePostingSchedule p tz (some hist)).optimalPostingTimes.map (fun s => s.time)
          = ((sortEngDesc (hourStats hist)).take 3).map (fun s => fmtHour s.hour))
        ∧ ((sortEngDesc (hourStats hist)).take 3).Pairwise engGe
        ∧ (∀ s ∈ hourStats hist,
            s.avgEngagement
              = ((bucket hist s.hour).map (fun q => q.engagement)).sum
                  / ((bucket hist s.hour).length : ℚ)
            ∧ s.avgViews
              = ((bucket hist s.hour).map (fun q => q.views)).sum
                  / ((bucket hist s.hour).length : ℚ)))
    ∧ hourStat samplePosts 9 = { hour := 9, avgViews := 200, avgEngagement := 60 }
    ∧ hourStat samplePosts 14 = { hour := 14, avgViews := 50, avgEngagement := 90 }
    ∧ (∀ (p : GrowthPlatform) (tz : String),
        (optimizePostingSchedule p tz (some samplePosts)).optimalPostingTimes.map
            (fun s => s.time) = ["14:00", "09:00"]) := by
  refine ⟨?_, hourStat_samplePosts_9, hourStat_samplePosts_14, ?_⟩
  · intro p tz hist hne
    have hlen : 0 < hist.length := List.length_pos.mpr hne
    have htimes : optimalTimes p (some hist)
        = ((sortEngDesc (hourStats hist)).take 3).map (fun s => fmtHour s.hour) := by
      simp only [optimalTimes]
      rw [if_pos hlen]
    refine ⟨?_, ?_, ?_⟩
    · simp only [optimizePostingSchedule, htimes, List.map_map]
      rfl
    · exact (sorted_sortEngDesc (hourStats hist)).sublist (List.take_sublist 3 _)
    · intro s hs
      rcases List.mem_map.mp hs with ⟨h, _, rfl⟩
      exact ⟨rfl, rfl⟩
  · intro p tz
    simp [optimizePostingSchedule, optimalTimes_samplePosts, List.map_map, Function.comp]

/-- C1 witness: the general clause applied to the spec's worked sample
history (non-empty), with the top-ranked time evaluated. -/
theorem claim_C1_witness :
    samplePosts ≠ [] ∧
      (optimizePostingSchedule GrowthPlatform.youtube "UTC"
          (some samplePosts)).optimalPostingTimes.map (fun s => s.time)
        = ((sortEngDesc (hourStats samplePosts)).take 3).map (fun s => fmtHour s.hour) ∧
      ((optimizePostingSchedule GrowthPlatform.youtube "UTC"
          (some samplePosts)).optimalPostingTimes.map (fun s => s.time)).headD ""
        = "14:00" := by
  refine ⟨by decide, (claim_C1.1 GrowthPlatform.youtube "UTC" samplePosts (by decide)).1, ?_⟩
  have h := claim_C1.2.2.2 GrowthPlatform.youtube "UTC"
  rw [h]
  rfl

/-- C10: with a non-empty history whose samples fall into `k` distinct
hours, the returned `optimalPostingTimes` has exactly `min k 3` entries
and equals the computed ranking (the baseline table is entirely
replaced); in particular a single sample yields exactly one recommended
time instead of the three baseline times. -/
theorem claim_C10 :
    (∀ (p : GrowthPlatform) (tz : String) (hist : List PerfPost), hist ≠ [] →
      (optimizePostingSchedule p tz (some hist)).optimalPostingTimes.length
        = min (distinctHours hist).length 3)
    ∧ (∀ (p : GrowthPlatform) (tz : String),
      (optimizePostingSchedule p tz (some singlePost)).optimalPostingTimes.length = 1
      ∧ (optimizePostingSchedule p tz (some singlePost)).optimalPostingTimes.map
          (fun s => s.time) = ["13:00"]
      ∧ (baselineTimes p).length = 3) := by
  constructor
  · intro p tz hist hne
    have hlen : 0 < hist.length := List.length_pos.mpr hne
    simp only [optimizePostingSchedule, optimalTimes, hlen, if_pos, List.length_map,
      List.length_take, length_sortEngDesc]
    rw [hourStats, List.length_map]
    exact Nat.min_comm 3 _
  · intro p tz
    refine ⟨?_, ?_, ?_⟩
    · simp [optimizePostingSchedule, optimalTimes_singlePost]
    · simp [optimizePostingSchedule, optimalTimes_singlePost, List.map_map, Function.comp]
    · cases p <;> rfl

/-- C10 witness: the general clause applied to the single-sample
history, whose samples fall into exactly one distinct hour. -/
theorem claim_C10_witness :
    singlePost ≠ [] ∧ (distinctHours singlePost).length = 1 ∧
      (optimizePostingSchedule GrowthPlatform.tiktok "UTC"
          (some singlePost)).optimalPostingTimes.length
        = min (distinctHours singlePost).length 3 := by
  exact ⟨by decide, by decide,
    claim_C10.1 GrowthPlatform.tiktok "UTC" singlePost (by decide)⟩

set_option maxRecDepth 4000 in
/-- C8 (amended): the DaVinci (EDL) export always begins with the fixed
title marker and its body contains a well-formed edit-decision line;
the FCPXML and Premiere exports embed the supplied voiceover path
verbatim inside the `asset` / `pathurl` element when a non-empty path
is provided, and omit that element entirely — the document equals the
element-free template — when `voiceoverPath` is absent or empty (the
source guards the slot with JavaScript truthiness, under which an empty
path counts as not provided). -/
theorem claim_C8 :
    (∀ (t vp : Option String),
      exportXmlDoc (mkExportArgs t vp ExportFormat.davinciXml) = davinciDoc)
    ∧ (docLines davinciDoc).headD "" = "TITLE: AI Generated Video"
    ∧ ((docLines davinciDoc).drop 1).any isEditLine = true
    ∧ (∀ (t : Option String) (p : String), p ≠ "" →
      strContains (exportXmlDoc (mkExportArgs t (some p) ExportFormat.fcpxml))
          (fcpAssetElem p) = true
      ∧ strContains (fcpAssetElem p) p = true)
    ∧ (∀ (t vp : Option String), vp = none ∨ vp = some "" →
      exportXmlDoc (mkExportArgs t vp ExportFormat.fcpxml)
        = fcpxmlNoVoiceover (projectName t))
    ∧ (∀ (t : Option String) (p : String), p ≠ "" →
      strContains (exportXmlDoc (mkExportArgs t (some p) ExportFormat.premiereXml))
          (premTrackElem p) = true
      ∧ strContains (premTrackElem p) p = true)
    ∧ (∀ (t vp : Option String), vp = none ∨ vp = some "" →
      exportXmlDoc (mkExportArgs t vp ExportFormat.premiereXml) = premiereNoVoiceover)
    ∧ strContains premiereNoVoiceover "pathurl" = false
    ∧ strContains (fcpxmlNoVoiceover "Untitled") "<asset" = false := by
  refine ⟨?_, by decide, by decide, ?_, ?_, ?_, ?_, by decide, by decide⟩
  · intro t vp
    rfl
  · intro t p hp
    constructor
    · apply strContains_of_decomp
      show exportXmlDoc _
        = fcpPart1 ++ fcpAssetElem p ++
            (fcpPart2 ++ projectName t ++ fcpPart3 ++ fcpAudioElem ++ fcpPart4)
      simp [exportXmlDoc, mkExportArgs, String.append_assoc, hp]
    · exact strContains_of_decomp rfl
  · intro t vp hvp
    have hgoal : fcpPart1 ++ "" ++ fcpPart2 ++ projectName t ++ fcpPart3 ++ "" ++ fcpPart4
        = fcpxmlNoVoiceover (projectName t) := by
      rw [strAppendNil, strAppendNil]
      rw [show fcpPart1 ++ fcpPart2
          = "<?xml version=\"1.0\" encoding=\"UTF-8\"?>\n<!DOCTYPE fcpxml>\n<fcpxml version=\"1.9\">\n  <resources>\n    <format id=\"r1\" name=\"FFVideoFormat1080p30\" frameDuration=\"1001/30000s\" width=\"1920\" height=\"1080\"/>\n    \n  </resources>\n  <library>\n    <event name=\"AI Generated Video\">\n      <project name=\"" from rfl]
      rw [String.append_assoc]
      rw [show fcpPart3 ++ fcpPart4
          = "\">\n        <sequence format=\"r1\" duration=\"60s\">\n          <spine>\n            \n            <!-- Add video clips here based on storyboard -->\n          </spine>\n        </sequence>\n      </project>\n    </event>\n  </library>\n</fcpxml>" from rfl]
      rfl
    rcases hvp with hvp | hvp
    · subst hvp
      exact hgoal
    · subst hvp
      exact hgoal
  · intro t p hp
    constructor
    · apply strContains_of_decomp
      show exportXmlDoc _ = premPart1 ++ premTrackElem p ++ premPart2
      simp [exportXmlDoc, mkExportArgs, String.append_assoc, hp]
    · exact strContains_of_decomp rfl
  · intro t vp hvp
    have hgoal : premPart1 ++ "" ++ premPart2 = premiereNoVoiceover := by
      rw [strAppendNil]
      rfl
    rcases hvp with hvp | hvp
    · subst hvp
      exact hgoal
    · subst hvp
      exact hgoal

set_option maxRecDepth 4000 in
/-- C8 counterexample: at a supplied but empty voiceover path the
program omits the `asset` / `pathurl` element instead of embedding the
path — the FCPXML document contains no `asset` element and no
`file://` occurrence, and the Premiere document contains no `pathurl`
element — refuting the claim that a provided `voiceoverPath` is always
embedded verbatim inside the expected element. -/
theorem claim_C8_counterexample :
    strContains (exportXmlDoc (mkExportArgs none (some "") ExportFormat.fcpxml))
        "<asset" = false
    ∧ strContains (exportXmlDoc (mkExportArgs none (some "") ExportFormat.fcpxml))
        "file://" = false
    ∧ strContains (exportXmlDoc (mkExportArgs none (some "") ExportFormat.premiereXml))
        "pathurl" = false := by
  refine ⟨by decide, by decide, by decide⟩

/-- C8 witness: the amended statement at a concrete non-empty path —
embedded verbatim in both XML formats — and at a concrete empty path,
where the element-free template is produced. -/
theorem claim_C8_witness :
    ("/tmp/voiceover-1.mp3" : String) ≠ "" ∧
      strContains (exportXmlDoc (mkExportArgs (some "My Video") (some "/tmp/voiceover-1.mp3")
          ExportFormat.fcpxml)) (fcpAssetElem "/tmp/voiceover-1.mp3") = true ∧
      strContains (exportXmlDoc (mkExportArgs (some "My Video") (some "/tmp/voiceover-1.mp3")
          ExportFormat.premiereXml)) (premTrackElem "/tmp/voiceover-1.mp3") = true ∧
      exportXmlDoc (mkExportArgs (some "My Video") (some "") ExportFormat.premiereXml)
        = premiereNoVoiceover :=
  ⟨by decide,
    (claim_C8.2.2.2.1 (some "My Video") "/tmp/voiceover-1.mp3" (by decide)).1,
    (claim_C8.2.2.2.2.2.1 (some "My Video") "/tmp/voiceover-1.mp3" (by decide)).1,
    claim_C8.2.2.2.2.2.2.1 (some "My Video") (some "") (Or.inr rfl)⟩
